import Mathlib

/-!
Shallow embedding of `src/txgbe_sysfs.c` (WangXun txgbe driver, hwmon sysfs
registry).  The C file builds, at adapter attach, a table of up to three
hwmon attribute files (`temp0_input`, `temp0_alarmthresh`,
`temp0_dalarmthresh`), registers them with the sysfs host, and tears the
table down on detach or on any init failure.

External collaborators (the HAL ops table and the kernel device/sysfs API)
are modelled as an environment record fixing the outcome of each external
call, plus an explicit host state holding the set of registered attribute
files.  The embedding follows the C control flow statement by statement.
-/

namespace Txgbe

/-- The thermal sensor record `hw.mac.thermal_sensor_data.sensor`:
current temperature and the two alarm thresholds, in whole degrees. -/
structure ThermalSensor where
  temp : Nat
  alarm_thresh : Nat
  dalarm_thresh : Nat
deriving DecidableEq, Repr

/-- The attribute kinds passed to `txgbe_add_hwmon_attr`
(`TXGBE_HWMON_TYPE_*`); `UNKNOWN` stands for any other `int` value,
hitting the `default:` arm of the switch. -/
inductive HwmonType where
  | TEMP
  | ALARMTHRESH
  | DALARMTHRESH
  | UNKNOWN
deriving DecidableEq, Repr

/-- One `struct hwmon_attr` slot: the file name written by `snprintf` and
the show callback installed (identified by its kind).  The `sensor` and
`hw` back-references are shared adapter state, kept implicit here. -/
structure HwmonAttr where
  name : String
  kind : HwmonType
deriving DecidableEq, Repr

/-- A `kcalloc`-zeroed slot of the descriptor table. -/
def zeroAttr : HwmonAttr := { name := "", kind := HwmonType.UNKNOWN }

/-- Model of `struct hwmon_buff`: live counter `n_hwmon`, the descriptor
table pointer (`none` = NULL), and the hwmon class-device handle
(`none` = NULL). -/
structure HwmonBuff where
  n_hwmon : Nat
  hwmon_list : Option (List HwmonAttr)
  device : Option Nat
deriving DecidableEq, Repr

/-- The slice of `struct txgbe_adapter` this file touches: its hwmon
buffer and the sensor record owned through `adapter->hw`. -/
structure Adapter where
  txgbe_hwmon_buff : HwmonBuff
  sensor : ThermalSensor
deriving DecidableEq, Repr

/-- The sysfs host's observable state: the attribute files that currently
exist under the adapter's device (in creation order), plus audit logs of
every `device_create_file` and `device_remove_file` call made. -/
structure Host where
  files : List String
  createLog : List String
  removeLog : List String
deriving DecidableEq, Repr

/-- Outcomes of the external calls made during one `txgbe_sysfs_init` run:
the HAL `init_thermal_sensor_thresh` return code, whether `kcalloc`
fails, the hwmon device registration outcome (errno or handle), and the
`device_create_file` return code the kernel would give for each attribute
kind absent a name collision. -/
structure Env where
  init_thermal_rc : Int
  kcalloc_fails : Bool
  hwmon_register : Except Int Nat
  create_rc : HwmonType → Int

def EPERM : Int := 1
def ENOMEM : Int := 12
def EEXIST : Int := 17

/-- Kernel `device_remove_file`: drops the named attribute file if it
exists; idempotent, no return value. -/
def device_remove_file (h : Host) (name : String) : Host :=
  { h with
    files := h.files.filter (fun x => x != name)
    removeLog := h.removeLog ++ [name] }

/-- Kernel `device_create_file`: fails with `-EEXIST` if a file of that
name already exists, otherwise returns the environment-determined code,
adding the file on success. -/
def device_create_file (h : Host) (name : String) (rcEnv : Int) : Int × Host :=
  let h := { h with createLog := h.createLog ++ [name] }
  if name ∈ h.files then (-EEXIST, h)
  else if rcEnv = 0 then (0, { h with files := h.files ++ [name] })
  else (rcEnv, h)

/-- The file name `snprintf` produces for each attribute kind. -/
def attrName : HwmonType → String
  | HwmonType.TEMP => "temp0_input"
  | HwmonType.ALARMTHRESH => "temp0_alarmthresh"
  | HwmonType.DALARMTHRESH => "temp0_dalarmthresh"
  | HwmonType.UNKNOWN => ""

/-- The descriptor `txgbe_add_hwmon_attr` writes into the slot for a
given kind: `snprintf` name plus the kind's show callback. -/
def attrFor (t : HwmonType) : HwmonAttr := { name := attrName t, kind := t }

/-- Model of `txgbe_hwmon_show_temp`: refreshes the sensor via the HAL ops table
(`get_thermal_sensor_data`, abstracted as `refresh`), then prints
`temp * 1000` (unsigned-int arithmetic) and a newline.  Returns the
buffer contents and the sensor state after the call. -/
def txgbe_hwmon_show_temp (refresh : ThermalSensor → ThermalSensor)
    (s : ThermalSensor) : String × ThermalSensor :=
  let s := refresh s
  let value := s.temp % 2 ^ 32
  let value := value * 1000 % 2 ^ 32
  (toString value ++ "\n", s)

/-- Model of `txgbe_hwmon_show_alarmthresh`: prints `alarm_thresh * 1000` and a
newline; makes no HAL call (the `refresh` capability is in scope through
`txgbe_attr->hw` but unused). -/
def txgbe_hwmon_show_alarmthresh (_refresh : ThermalSensor → ThermalSensor)
    (s : ThermalSensor) : String × ThermalSensor :=
  let value := s.alarm_thresh % 2 ^ 32
  let value := value * 1000 % 2 ^ 32
  (toString value ++ "\n", s)

/-- Model of `txgbe_hwmon_show_dalarmthresh`: prints `dalarm_thresh * 1000` and a
newline; no HAL call. -/
def txgbe_hwmon_show_dalarmthresh (_refresh : ThermalSensor → ThermalSensor)
    (s : ThermalSensor) : String × ThermalSensor :=
  let value := s.dalarm_thresh % 2 ^ 32
  let value := value * 1000 % 2 ^ 32
  (toString value ++ "\n", s)

/-- Model of `txgbe_add_hwmon_attr`: fills the slot `hwmon_list[n_hwmon]` for the
requested kind (unknown kinds return `-EPERM` untouched), removes any
stale file of that name, attempts the create, and increments `n_hwmon`
only when the create returned 0.  Returns the create's return code and
the updated adapter and host. -/
def txgbe_add_hwmon_attr (env : Env) (adapter : Adapter) (host : Host)
    (t : HwmonType) : Int × Adapter × Host :=
  let n_attr := adapter.txgbe_hwmon_buff.n_hwmon
  match t with
  | HwmonType.UNKNOWN => (-EPERM, adapter, host)
  | _ =>
    let txgbe_attr := attrFor t
    let list := adapter.txgbe_hwmon_buff.hwmon_list.map
      (fun l => l.set n_attr txgbe_attr)
    let host := device_remove_file host txgbe_attr.name
    let (rc, host) := device_create_file host txgbe_attr.name (env.create_rc t)
    let buff :=
      { adapter.txgbe_hwmon_buff with
        hwmon_list := list
        n_hwmon := if rc = 0 then n_attr + 1 else n_attr }
    (rc, { adapter with txgbe_hwmon_buff := buff }, host)

/-- Model of `txgbe_sysfs_del_adapter`: NULL adapter is a no-op; otherwise removes
the files of `hwmon_list[0 .. n_hwmon)`, frees the table, unregisters
the hwmon device if live, and zeroes `device` and `n_hwmon`. -/
def txgbe_sysfs_del_adapter (adapter : Option Adapter) (host : Host) :
    Option Adapter × Host :=
  match adapter with
  | none => (none, host)
  | some ad =>
    let buff := ad.txgbe_hwmon_buff
    let (buff, host) :=
      match buff.hwmon_list with
      | some l =>
        let host := (List.range buff.n_hwmon).foldl
          (fun h i => device_remove_file h ((l.getD i zeroAttr).name)) host
        ({ buff with hwmon_list := none }, host)
      | none => (buff, host)
    let buff := { buff with device := none, n_hwmon := 0 }
    (some { ad with txgbe_hwmon_buff := buff }, host)

/-- Model of `txgbe_sysfs_exit`: delegates to `txgbe_sysfs_del_adapter`. -/
def txgbe_sysfs_exit (adapter : Option Adapter) (host : Host) :
    Option Adapter × Host :=
  txgbe_sysfs_del_adapter adapter host

/-- Model of `txgbe_sysfs_init`: returns the C function's `rc` together with the
final adapter and host state, mirroring the goto structure: NULL adapter
jumps to `err` with `rc == 0`; no sensor jumps to `no_thermal` (success);
otherwise allocate the 3-slot table, register the hwmon device, attempt
all three attribute kinds accumulating `rc` with bitwise or, and on any
failure run `txgbe_sysfs_del_adapter` before returning. -/
def txgbe_sysfs_init (env : Env) (adapter : Option Adapter) (host : Host) :
    Int × Option Adapter × Host :=
  match adapter with
  | none =>
    let (a, h) := txgbe_sysfs_del_adapter none host
    (0, a, h)
  | some ad =>
    if env.init_thermal_rc ≠ 0 then
      (0, some ad, host)
    else
      let buff0 := { ad.txgbe_hwmon_buff with device := none, n_hwmon := 0 }
      if env.kcalloc_fails then
        let ad1 := { ad with txgbe_hwmon_buff := { buff0 with hwmon_list := none } }
        let (a, h) := txgbe_sysfs_del_adapter (some ad1) host
        (-ENOMEM, a, h)
      else
        let ad1 := { ad with txgbe_hwmon_buff :=
          { buff0 with hwmon_list := some (List.replicate 3 zeroAttr) } }
        match env.hwmon_register with
        | Except.error e =>
          let ad2 := { ad1 with txgbe_hwmon_buff :=
            { ad1.txgbe_hwmon_buff with device := none } }
          let (a, h) := txgbe_sysfs_del_adapter (some ad2) host
          (e, a, h)
        | Except.ok hdl =>
          let ad2 := { ad1 with txgbe_hwmon_buff :=
            { ad1.txgbe_hwmon_buff with device := some hdl } }
          let (rc1, ad3, h1) := txgbe_add_hwmon_attr env ad2 host HwmonType.TEMP
          let (rc2, ad4, h2) := txgbe_add_hwmon_attr env ad3 h1 HwmonType.ALARMTHRESH
          let (rc3, ad5, h3) := txgbe_add_hwmon_attr env ad4 h2 HwmonType.DALARMTHRESH
          let rc := Int.lor (Int.lor rc1 rc2) rc3
          if rc ≠ 0 then
            let (a, h) := txgbe_sysfs_del_adapter (some ad5) h3
            (rc, a, h)
          else
            (rc, some ad5, h3)

/-! ### Concrete states used to exercise the model -/

/-- An adapter fresh from allocation: no table, no device, no live files. -/
def adFresh : Adapter :=
  { txgbe_hwmon_buff := { n_hwmon := 0, hwmon_list := none, device := none }
    sensor := { temp := 45, alarm_thresh := 90, dalarm_thresh := 100 } }

/-- An empty sysfs namespace. -/
def host0 : Host := { files := [], createLog := [], removeLog := [] }

/-- Environment where every external call succeeds. -/
def envAllOk : Env :=
  { init_thermal_rc := 0
    kcalloc_fails := false
    hwmon_register := Except.ok 1
    create_rc := fun _ => 0 }

/-- Environment where the HAL reports no thermal sensor. -/
def envNoSensor : Env := { envAllOk with init_thermal_rc := 1 }

/-- Environment where the create of `temp0_alarmthresh` fails with
`-EIO` and the other two succeed. -/
def envMidFail : Env :=
  { envAllOk with
    create_rc := fun t => if t = HwmonType.ALARMTHRESH then -5 else 0 }

/-! ### Helper lemmas -/

lemma nat_lor_eq_zero_iff (m n : Nat) : m ||| n = 0 ↔ m = 0 ∧ n = 0 := by
  constructor
  · intro h
    constructor
    · apply Nat.eq_of_testBit_eq
      intro k
      have hk : (m ||| n).testBit k = Nat.testBit 0 k := by rw [h]
      rw [Nat.testBit_or] at hk
      simp only [Nat.zero_testBit] at hk ⊢
      exact (Bool.or_eq_false_iff.mp hk).1
    · apply Nat.eq_of_testBit_eq
      intro k
      have hk : (m ||| n).testBit k = Nat.testBit 0 k := by rw [h]
      rw [Nat.testBit_or] at hk
      simp only [Nat.zero_testBit] at hk ⊢
      exact (Bool.or_eq_false_iff.mp hk).2
  · rintro ⟨rfl, rfl⟩
    rfl

lemma int_lor_eq_zero_iff (a b : Int) : Int.lor a b = 0 ↔ a = 0 ∧ b = 0 := by
  cases a with
  | ofNat m =>
    cases b with
    | ofNat n =>
      show Int.ofNat (m ||| n) = 0 ↔ _
      simp [Int.ofNat_eq_zero, nat_lor_eq_zero_iff]
    | negSucc n =>
      show Int.negSucc _ = 0 ↔ _
      simp [Int.negSucc_eq]
      omega
  | negSucc m =>
    cases b with
    | ofNat n =>
      show Int.negSucc _ = 0 ↔ _
      simp [Int.negSucc_eq]
      omega
    | negSucc n =>
      show Int.negSucc _ = 0 ↔ _
      simp [Int.negSucc_eq]
      omega

lemma int_lor_ne_zero_left {a : Int} (b : Int) (h : a ≠ 0) : Int.lor a b ≠ 0 :=
  fun hc => h ((int_lor_eq_zero_iff a b).mp hc).1

lemma int_lor_ne_zero_right (a : Int) {b : Int} (h : b ≠ 0) : Int.lor a b ≠ 0 :=
  fun hc => h ((int_lor_eq_zero_iff a b).mp hc).2

lemma self_not_mem_filter_ne (name : String) (l : List String) :
    name ∉ l.filter (fun x => x != name) := by
  simp [List.mem_filter]

/-- Characterization of a successful entry into `txgbe_add_hwmon_attr`
with a recognised kind: the slot is filled, the stale file removed, the
create attempted with the environment's return code (a name collision is
impossible because the removal precedes the create), and `n_hwmon` grows
exactly when the create succeeded. -/
lemma add_hwmon_attr_eq (env : Env) (ad : Adapter) (host : Host)
    (t : HwmonType) (ht : t ≠ HwmonType.UNKNOWN) :
    txgbe_add_hwmon_attr env ad host t =
      (env.create_rc t,
       { ad with txgbe_hwmon_buff :=
          { ad.txgbe_hwmon_buff with
            hwmon_list := ad.txgbe_hwmon_buff.hwmon_list.map
              (fun l => l.set ad.txgbe_hwmon_buff.n_hwmon (attrFor t))
            n_hwmon := if env.create_rc t = 0 then ad.txgbe_hwmon_buff.n_hwmon + 1
                       else ad.txgbe_hwmon_buff.n_hwmon } },
       { files := if env.create_rc t = 0
           then host.files.filter (fun x => x != attrName t) ++ [attrName t]
           else host.files.filter (fun x => x != attrName t)
         createLog := host.createLog ++ [attrName t]
         removeLog := host.removeLog ++ [attrName t] }) := by
  have hmem := self_not_mem_filter_ne (attrName t) host.files
  cases t with
  | UNKNOWN => exact absurd rfl ht
  | TEMP =>
    by_cases hc : env.create_rc HwmonType.TEMP = 0 <;>
      simp [txgbe_add_hwmon_attr, device_remove_file, device_create_file,
        attrFor, hc, hmem]
  | ALARMTHRESH =>
    by_cases hc : env.create_rc HwmonType.ALARMTHRESH = 0 <;>
      simp [txgbe_add_hwmon_attr, device_remove_file, device_create_file,
        attrFor, hc, hmem]
  | DALARMTHRESH =>
    by_cases hc : env.create_rc HwmonType.DALARMTHRESH = 0 <;>
      simp [txgbe_add_hwmon_attr, device_remove_file, device_create_file,
        attrFor, hc, hmem]

lemma foldl_remove_createLog (l : List Nat) (f : Nat → String) (h : Host) :
    (l.foldl (fun h i => device_remove_file h (f i)) h).createLog = h.createLog := by
  induction l generalizing h with
  | nil => rfl
  | cons x xs ih =>
    rw [List.foldl_cons, ih]
    rfl

lemma del_adapter_createLog (a : Option Adapter) (host : Host) :
    ((txgbe_sysfs_del_adapter a host).2).createLog = host.createLog := by
  cases a with
  | none => rfl
  | some ad =>
    obtain ⟨⟨n, l, d⟩, s⟩ := ad
    cases l with
    | none => rfl
    | some l' =>
      simp only [txgbe_sysfs_del_adapter]
      exact foldl_remove_createLog (List.range n) (fun i => (l'.getD i zeroAttr).name) host

/-! ### Claims -/

/-- C10: calling `txgbe_sysfs_init` with a NULL adapter returns 0
(success), not an error: the NULL check jumps to the cleanup label while
`rc` is still 0, and `txgbe_sysfs_del_adapter` returns at once on a NULL
adapter, leaving all state untouched. -/
theorem init_null_adapter_returns_zero (env : Env) (host : Host) :
    txgbe_sysfs_init env none host = (0, none, host) := rfl

/-- C2: when the HAL threshold-initialization call reports no sensor
(non-zero result), `txgbe_sysfs_init` returns 0, allocates no table,
registers nothing (adapter and host are returned unchanged), and a fresh
adapter still has `n_hwmon == 0`, `device == NULL`, `hwmon_list == NULL`
afterwards. -/
theorem init_no_sensor_success (env : Env) (ad : Adapter) (host : Host)
    (hthermal : env.init_thermal_rc ≠ 0)
    (hfresh : ad.txgbe_hwmon_buff
      = { n_hwmon := 0, hwmon_list := none, device := none }) :
    txgbe_sysfs_init env (some ad) host = (0, some ad, host) ∧
    ad.txgbe_hwmon_buff.n_hwmon = 0 ∧
    ad.txgbe_hwmon_buff.device = none ∧
    ad.txgbe_hwmon_buff.hwmon_list = none := by
  refine ⟨?_, by rw [hfresh], by rw [hfresh], by rw [hfresh]⟩
  simp [txgbe_sysfs_init, hthermal]

theorem init_no_sensor_success_witness :
    txgbe_sysfs_init envNoSensor (some adFresh) host0 = (0, some adFresh, host0) ∧
    adFresh.txgbe_hwmon_buff.n_hwmon = 0 ∧
    adFresh.txgbe_hwmon_buff.device = none ∧
    adFresh.txgbe_hwmon_buff.hwmon_list = none :=
  init_no_sensor_success envNoSensor adFresh host0 (by decide) rfl

/-- C5: the `temp0_input` accessor first refreshes the sensor through the
HAL and then prints `temp * 1000` (unsigned arithmetic) with a trailing
newline; with `temp = 45` it prints exactly `"45000\n"`, and a second
invocation reflects whatever the refresh yields at that invocation. -/
theorem show_temp_refreshes_then_formats
    (refresh : ThermalSensor → ThermalSensor) (s : ThermalSensor) :
    txgbe_hwmon_show_temp refresh s
      = (toString ((refresh s).temp % 2 ^ 32 * 1000 % 2 ^ 32) ++ "\n", refresh s) ∧
    ((refresh s).temp = 45 → (txgbe_hwmon_show_temp refresh s).1 = "45000\n") ∧
    (∀ refresh2 : ThermalSensor → ThermalSensor,
      (txgbe_hwmon_show_temp refresh2 (txgbe_hwmon_show_temp refresh s).2).1
        = toString ((refresh2 (refresh s)).temp % 2 ^ 32 * 1000 % 2 ^ 32) ++ "\n") := by
  refine ⟨rfl, ?_, fun refresh2 => rfl⟩
  intro h
  show toString ((refresh s).temp % 2 ^ 32 * 1000 % 2 ^ 32) ++ "\n" = "45000\n"
  rw [h]
  rfl

theorem show_temp_refreshes_then_formats_witness :
    (txgbe_hwmon_show_temp
      (fun _ => { temp := 45, alarm_thresh := 90, dalarm_thresh := 100 })
      { temp := 0, alarm_thresh := 0, dalarm_thresh := 0 }).1 = "45000\n" :=
  (show_temp_refreshes_then_formats
    (fun _ => { temp := 45, alarm_thresh := 90, dalarm_thresh := 100 })
    { temp := 0, alarm_thresh := 0, dalarm_thresh := 0 }).2.1 rfl

/-- C7: the threshold accessors make no HAL refresh call (their output
and final sensor state are independent of the refresh operation in
scope) and leave the shared sensor record unchanged, printing the stored
threshold times 1000 with a newline. -/
theorem show_thresholds_no_refresh
    (r r2 : ThermalSensor → ThermalSensor) (s : ThermalSensor) :
    txgbe_hwmon_show_alarmthresh r s = txgbe_hwmon_show_alarmthresh r2 s ∧
    txgbe_hwmon_show_alarmthresh r s
      = (toString (s.alarm_thresh % 2 ^ 32 * 1000 % 2 ^ 32) ++ "\n", s) ∧
    txgbe_hwmon_show_dalarmthresh r s = txgbe_hwmon_show_dalarmthresh r2 s ∧
    txgbe_hwmon_show_dalarmthresh r s
      = (toString (s.dalarm_thresh % 2 ^ 32 * 1000 % 2 ^ 32) ++ "\n", s) :=
  ⟨rfl, rfl, rfl, rfl⟩

/-- C8: every recognised-kind attempt in `txgbe_add_hwmon_attr` performs
the best-effort removal (the remove log grows by the attribute name no
matter what the create then returns), the create is attempted exactly
once, and its return code is the environment's code for that kind — never
`-EEXIST` — whatever stale files the host namespace held. -/
theorem add_attr_removes_stale_first (env : Env) (ad : Adapter) (host : Host)
    (t : HwmonType) (ht : t ≠ HwmonType.UNKNOWN) :
    (txgbe_add_hwmon_attr env ad host t).1 = env.create_rc t ∧
    ((txgbe_add_hwmon_attr env ad host t).2.2).removeLog
      = host.removeLog ++ [attrName t] ∧
    ((txgbe_add_hwmon_attr env ad host t).2.2).createLog
      = host.createLog ++ [attrName t] ∧
    ((txgbe_add_hwmon_attr env ad host t).2.2).files
      = (if env.create_rc t = 0
          then host.files.filter (fun x => x != attrName t) ++ [attrName t]
          else host.files.filter (fun x => x != attrName t)) := by
  rw [add_hwmon_attr_eq env ad host t ht]
  exact ⟨rfl, rfl, rfl, rfl⟩

/-- An adapter whose sysfs namespace holds a stale `temp0_alarmthresh`
file from an earlier unclean run. -/
def hostStale : Host :=
  { files := ["temp0_alarmthresh"], createLog := [], removeLog := [] }

theorem add_attr_removes_stale_first_witness :
    (txgbe_add_hwmon_attr envMidFail adFresh hostStale
        HwmonType.ALARMTHRESH).1 = -5 ∧
    ((txgbe_add_hwmon_attr envMidFail adFresh hostStale
        HwmonType.ALARMTHRESH).2.2).removeLog = ["temp0_alarmthresh"] ∧
    ((txgbe_add_hwmon_attr envMidFail adFresh hostStale
        HwmonType.ALARMTHRESH).2.2).files = [] := by
  have h := add_attr_removes_stale_first envMidFail adFresh hostStale
    HwmonType.ALARMTHRESH (by decide)
  refine ⟨h.1, ?_, ?_⟩
  · rw [h.2.1]
    decide
  · rw [h.2.2.2]
    decide

/-- C6: `txgbe_sysfs_exit` is total and idempotent: run twice in a row
(from any adapter/host state, including a never-initialized adapter or a
NULL adapter) the second run changes nothing, and any non-NULL adapter is
left in the terminal state `n_hwmon == 0`, `hwmon_list == NULL`,
`device == NULL`. -/
theorem exit_idempotent_terminal (a : Option Adapter) (host : Host) :
    txgbe_sysfs_exit (txgbe_sysfs_exit a host).1 (txgbe_sysfs_exit a host).2
      = txgbe_sysfs_exit a host ∧
    (∀ ad : Adapter, (txgbe_sysfs_exit (some ad) host).1
      = some { ad with txgbe_hwmon_buff :=
          { n_hwmon := 0, hwmon_list := none, device := none } }) := by
  constructor
  · cases a with
    | none => rfl
    | some ad =>
      obtain ⟨⟨n, l, d⟩, s⟩ := ad
      cases l <;> simp [txgbe_sysfs_exit, txgbe_sysfs_del_adapter]
  · intro ad
    obtain ⟨⟨n, l, d⟩, s⟩ := ad
    cases l <;> simp [txgbe_sysfs_exit, txgbe_sysfs_del_adapter]

/-- C4: once the Populate phase is reached (sensor present, table
allocated, hwmon device registered), all three `txgbe_add_hwmon_attr`
calls are made regardless of earlier results — the create log grows by
exactly the three names in order — and the value `txgbe_sysfs_init`
returns is the bitwise or of the three individual return codes. -/
theorem init_attempts_all_three (env : Env) (ad : Adapter) (host : Host)
    (hdl : Nat)
    (hthermal : env.init_thermal_rc = 0)
    (hkcalloc : env.kcalloc_fails = false)
    (hreg : env.hwmon_register = Except.ok hdl) :
    (txgbe_sysfs_init env (some ad) host).1
      = Int.lor (Int.lor (env.create_rc HwmonType.TEMP)
          (env.create_rc HwmonType.ALARMTHRESH))
          (env.create_rc HwmonType.DALARMTHRESH) ∧
    ((txgbe_sysfs_init env (some ad) host).2.2).createLog
      = host.createLog
        ++ ["temp0_input", "temp0_alarmthresh", "temp0_dalarmthresh"] := by
  simp only [txgbe_sysfs_init, hthermal, hkcalloc, hreg, ne_eq,
    not_true_eq_false, if_false, Bool.false_eq_true]
  rw [add_hwmon_attr_eq env _ _ HwmonType.TEMP (by simp),
    add_hwmon_attr_eq env _ _ HwmonType.ALARMTHRESH (by simp),
    add_hwmon_attr_eq env _ _ HwmonType.DALARMTHRESH (by simp)]
  by_cases hrc : Int.lor (Int.lor (env.create_rc HwmonType.TEMP)
      (env.create_rc HwmonType.ALARMTHRESH))
      (env.create_rc HwmonType.DALARMTHRESH) = 0
  · simp [hrc, attrName]
  · simp [hrc, attrName, del_adapter_createLog]

theorem init_attempts_all_three_witness :
    (txgbe_sysfs_init envAllOk (some adFresh) host0).1
      = Int.lor (Int.lor (envAllOk.create_rc HwmonType.TEMP)
          (envAllOk.create_rc HwmonType.ALARMTHRESH))
          (envAllOk.create_rc HwmonType.DALARMTHRESH) ∧
    ((txgbe_sysfs_init envAllOk (some adFresh) host0).2.2).createLog
      = host0.createLog
        ++ ["temp0_input", "temp0_alarmthresh", "temp0_dalarmthresh"] :=
  init_attempts_all_three envAllOk adFresh host0 1 rfl rfl rfl

/-- C3: with the sensor present and all three creates succeeding,
`txgbe_sysfs_init` returns 0, leaves `n_hwmon == 3`, a live device
handle, the table holding the three descriptors in fixed order, and the
host namespace gains exactly the files `temp0_input`,
`temp0_alarmthresh`, `temp0_dalarmthresh`, created in that order. -/
theorem init_all_ok_three_files (env : Env) (ad : Adapter) (host : Host)
    (hdl : Nat)
    (hthermal : env.init_thermal_rc = 0)
    (hkcalloc : env.kcalloc_fails = false)
    (hreg : env.hwmon_register = Except.ok hdl)
    (h1 : env.create_rc HwmonType.TEMP = 0)
    (h2 : env.create_rc HwmonType.ALARMTHRESH = 0)
    (h3 : env.create_rc HwmonType.DALARMTHRESH = 0) :
    (txgbe_sysfs_init env (some ad) host).1 = 0 ∧
    (txgbe_sysfs_init env (some ad) host).2.1
      = some { ad with txgbe_hwmon_buff :=
          { n_hwmon := 3
            hwmon_list := some [attrFor HwmonType.TEMP,
              attrFor HwmonType.ALARMTHRESH, attrFor HwmonType.DALARMTHRESH]
            device := some hdl } } ∧
    ((txgbe_sysfs_init env (some ad) host).2.2).createLog
      = host.createLog
        ++ ["temp0_input", "temp0_alarmthresh", "temp0_dalarmthresh"] ∧
    ((txgbe_sysfs_init env (some ad) host).2.2).files
      = ((host.files.filter (fun x => x != "temp0_input")).filter
          (fun x => x != "temp0_alarmthresh")).filter
            (fun x => x != "temp0_dalarmthresh")
        ++ ["temp0_input", "temp0_alarmthresh", "temp0_dalarmthresh"] := by
  simp only [txgbe_sysfs_init, hthermal, hkcalloc, hreg, ne_eq,
    not_true_eq_false, if_false, Bool.false_eq_true]
  rw [add_hwmon_attr_eq env _ _ HwmonType.TEMP (by simp),
    add_hwmon_attr_eq env _ _ HwmonType.ALARMTHRESH (by simp),
    add_hwmon_attr_eq env _ _ HwmonType.DALARMTHRESH (by simp)]
  simp only [h1, h2, h3, if_pos rfl, attrName]
  have hz : Int.lor (Int.lor 0 0) 0 = (0 : Int) := rfl
  simp [hz, attrName, List.filter_append]

theorem init_all_ok_three_files_witness :
    (txgbe_sysfs_init envAllOk (some adFresh) host0).1 = 0 ∧
    (txgbe_sysfs_init envAllOk (some adFresh) host0).2.1
      = some { adFresh with txgbe_hwmon_buff :=
          { n_hwmon := 3
            hwmon_list := some [attrFor HwmonType.TEMP,
              attrFor HwmonType.ALARMTHRESH, attrFor HwmonType.DALARMTHRESH]
            device := some 1 } } ∧
    ((txgbe_sysfs_init envAllOk (some adFresh) host0).2.2).createLog
      = host0.createLog
        ++ ["temp0_input", "temp0_alarmthresh", "temp0_dalarmthresh"] ∧
    ((txgbe_sysfs_init envAllOk (some adFresh) host0).2.2).files
      = ((host0.files.filter (fun x => x != "temp0_input")).filter
          (fun x => x != "temp0_alarmthresh")).filter
            (fun x => x != "temp0_dalarmthresh")
        ++ ["temp0_input", "temp0_alarmthresh", "temp0_dalarmthresh"] :=
  init_all_ok_three_files envAllOk adFresh host0 1 rfl rfl rfl rfl rfl rfl

lemma int_lor3_ne_zero {a b c : Int} (h : ¬(a = 0 ∧ b = 0 ∧ c = 0)) :
    ¬(Int.lor (Int.lor a b) c = 0) := by
  intro hc
  obtain ⟨hab, hc0⟩ := (int_lor_eq_zero_iff _ _).mp hc
  obtain ⟨ha, hb⟩ := (int_lor_eq_zero_iff _ _).mp hab
  exact h ⟨ha, hb, hc0⟩

/-- C1: with the sensor present, the table allocated and the hwmon device
registered, if at least one of the three per-kind creates fails then
`txgbe_sysfs_init` returns a non-zero code and fully unwinds: the buffer
ends with `n_hwmon == 0`, `hwmon_list == NULL`, `device == NULL`, and
none of the three attribute files remains in the host namespace,
regardless of which subset of creates initially succeeded. -/
theorem init_attr_failure_full_unwind (env : Env) (ad : Adapter)
    (host : Host) (hdl : Nat)
    (hthermal : env.init_thermal_rc = 0)
    (hkcalloc : env.kcalloc_fails = false)
    (hreg : env.hwmon_register = Except.ok hdl)
    (hfail : ¬(env.create_rc HwmonType.TEMP = 0 ∧
               env.create_rc HwmonType.ALARMTHRESH = 0 ∧
               env.create_rc HwmonType.DALARMTHRESH = 0)) :
    (txgbe_sysfs_init env (some ad) host).1 ≠ 0 ∧
    (txgbe_sysfs_init env (some ad) host).2.1
      = some { ad with txgbe_hwmon_buff :=
          { n_hwmon := 0, hwmon_list := none, device := none } } ∧
    "temp0_input" ∉ ((txgbe_sysfs_init env (some ad) host).2.2).files ∧
    "temp0_alarmthresh" ∉ ((txgbe_sysfs_init env (some ad) host).2.2).files ∧
    "temp0_dalarmthresh" ∉ ((txgbe_sysfs_init env (some ad) host).2.2).files := by
  have hrc := int_lor3_ne_zero hfail
  simp only [txgbe_sysfs_init, hthermal, hkcalloc, hreg, ne_eq,
    not_true_eq_false, if_false, Bool.false_eq_true]
  rw [add_hwmon_attr_eq env _ _ HwmonType.TEMP (by simp),
    add_hwmon_attr_eq env _ _ HwmonType.ALARMTHRESH (by simp),
    add_hwmon_attr_eq env _ _ HwmonType.DALARMTHRESH (by simp)]
  rw [if_pos hrc]
  refine ⟨hrc, ?_⟩
  by_cases h1 : env.create_rc HwmonType.TEMP = 0 <;>
    by_cases h2 : env.create_rc HwmonType.ALARMTHRESH = 0 <;>
      by_cases h3 : env.create_rc HwmonType.DALARMTHRESH = 0 <;>
        simp [h1, h2, h3, txgbe_sysfs_del_adapter, device_remove_file,
          attrName, attrFor, zeroAttr, List.range_succ, List.mem_filter]

theorem init_attr_failure_full_unwind_witness :
    (txgbe_sysfs_init envMidFail (some adFresh) host0).1 ≠ 0 ∧
    (txgbe_sysfs_init envMidFail (some adFresh) host0).2.1
      = some { adFresh with txgbe_hwmon_buff :=
          { n_hwmon := 0, hwmon_list := none, device := none } } ∧
    "temp0_input" ∉ ((txgbe_sysfs_init envMidFail (some adFresh) host0).2.2).files ∧
    "temp0_alarmthresh"
      ∉ ((txgbe_sysfs_init envMidFail (some adFresh) host0).2.2).files ∧
    "temp0_dalarmthresh"
      ∉ ((txgbe_sysfs_init envMidFail (some adFresh) host0).2.2).files :=
  init_attr_failure_full_unwind envMidFail adFresh host0 1 rfl rfl rfl
    (by decide)

/-- Run a sequence of `txgbe_add_hwmon_attr` calls, threading adapter and
host state (return codes dropped, as a caller inspecting only the
aggregate may). -/
def runAdds (env : Env) : List HwmonType → Adapter × Host → Adapter × Host
  | [], st => st
  | t :: ts, (ad, host) =>
    let r := txgbe_add_hwmon_attr env ad host t
    runAdds env ts (r.2.1, r.2.2)

/-- The descriptors whose file creation succeeds in a run of attempts:
the recognised kinds whose create code is 0, in attempt order. -/
def addsSucceeded (env : Env) (ts : List HwmonType) : List HwmonAttr :=
  (ts.filter
    (fun t => !(t == HwmonType.UNKNOWN) && (env.create_rc t == 0))).map attrFor

lemma addsSucceeded_nil (env : Env) : addsSucceeded env [] = [] := rfl

lemma addsSucceeded_cons (env : Env) (t : HwmonType) (ts : List HwmonType) :
    addsSucceeded env (t :: ts)
      = if t ≠ HwmonType.UNKNOWN ∧ env.create_rc t = 0
        then attrFor t :: addsSucceeded env ts
        else addsSucceeded env ts := by
  by_cases h : t = HwmonType.UNKNOWN <;> by_cases hc : env.create_rc t = 0 <;>
    simp [addsSucceeded, h, hc]

lemma take_succ_set {α : Type} (l : List α) (n : Nat) (a : α)
    (h : n < l.length) : (l.set n a).take (n + 1) = l.take n ++ [a] := by
  induction l generalizing n with
  | nil => simp at h
  | cons x xs ih =>
    cases n with
    | zero => simp
    | succ m =>
      simp only [List.set, List.take, List.cons_append]
      rw [ih m (by simpa using h)]

lemma take_set_self {α : Type} (l : List α) (n : Nat) (a : α) :
    (l.set n a).take n = l.take n := by
  induction l generalizing n with
  | nil => simp
  | cons x xs ih =>
    cases n with
    | zero => simp
    | succ m =>
      simp only [List.set, List.take]
      rw [ih]

lemma runAdds_invariant (env : Env) (ts : List HwmonType) :
    ∀ (ad : Adapter) (host : Host) (l : List HwmonAttr),
      ad.txgbe_hwmon_buff.hwmon_list = some l →
      l.length = 3 →
      ad.txgbe_hwmon_buff.n_hwmon + ts.length ≤ 3 →
      ∃ l' : List HwmonAttr,
        (runAdds env ts (ad, host)).1.txgbe_hwmon_buff.hwmon_list = some l' ∧
        l'.length = 3 ∧
        (runAdds env ts (ad, host)).1.txgbe_hwmon_buff.n_hwmon
          = ad.txgbe_hwmon_buff.n_hwmon + (addsSucceeded env ts).length ∧
        l'.take ((runAdds env ts (ad, host)).1.txgbe_hwmon_buff.n_hwmon)
          = l.take ad.txgbe_hwmon_buff.n_hwmon ++ addsSucceeded env ts := by
  induction ts with
  | nil =>
    intro ad host l hl hlen hb
    exact ⟨l, hl, hlen, by simp [runAdds, addsSucceeded_nil],
      by simp [runAdds, addsSucceeded_nil]⟩
  | cons t ts ih =>
    intro ad host l hl hlen hb
    by_cases ht : t = HwmonType.UNKNOWN
    · subst ht
      have hstep : runAdds env (HwmonType.UNKNOWN :: ts) (ad, host)
          = runAdds env ts (ad, host) := by
        simp [runAdds, txgbe_add_hwmon_attr]
      have hsucc : addsSucceeded env (HwmonType.UNKNOWN :: ts)
          = addsSucceeded env ts := by
        simp [addsSucceeded]
      rw [hstep, hsucc]
      exact ih ad host l hl hlen (by simp at hb; omega)
    · have hstep : runAdds env (t :: ts) (ad, host)
          = runAdds env ts ((txgbe_add_hwmon_attr env ad host t).2.1,
              (txgbe_add_hwmon_attr env ad host t).2.2) := rfl
      rw [hstep, add_hwmon_attr_eq env ad host t ht]
      rw [addsSucceeded_cons]
      have hn3 : ad.txgbe_hwmon_buff.n_hwmon + ts.length + 1 ≤ 3 := by
        simp at hb; omega
      by_cases hc : env.create_rc t = 0
      · have hlt : ad.txgbe_hwmon_buff.n_hwmon < l.length := by omega
        obtain ⟨l', hl', hlen', hcount', htake'⟩ :=
          ih { ad with txgbe_hwmon_buff :=
                { ad.txgbe_hwmon_buff with
                  hwmon_list := ad.txgbe_hwmon_buff.hwmon_list.map
                    (fun l => l.set ad.txgbe_hwmon_buff.n_hwmon (attrFor t))
                  n_hwmon := if env.create_rc t = 0
                    then ad.txgbe_hwmon_buff.n_hwmon + 1
                    else ad.txgbe_hwmon_buff.n_hwmon } }
            { files := if env.create_rc t = 0
                then host.files.filter (fun x => x != attrName t) ++ [attrName t]
                else host.files.filter (fun x => x != attrName t)
              createLog := host.createLog ++ [attrName t]
              removeLog := host.removeLog ++ [attrName t] }
            (l.set ad.txgbe_hwmon_buff.n_hwmon (attrFor t))
            (by simp [hl]) (by simp [hlen]) (by simp [hc]; omega)
        refine ⟨l', hl', hlen', ?_, ?_⟩
        · rw [hcount']
          simp [hc, ht]
          omega
        · rw [htake']
          have hif : (if env.create_rc t = 0
              then ad.txgbe_hwmon_buff.n_hwmon + 1
              else ad.txgbe_hwmon_buff.n_hwmon)
              = ad.txgbe_hwmon_buff.n_hwmon + 1 := if_pos hc
          rw [hif, take_succ_set l _ _ hlt, if_pos (And.intro ht hc)]
          simp
      · obtain ⟨l', hl', hlen', hcount', htake'⟩ :=
          ih { ad with txgbe_hwmon_buff :=
                { ad.txgbe_hwmon_buff with
                  hwmon_list := ad.txgbe_hwmon_buff.hwmon_list.map
                    (fun l => l.set ad.txgbe_hwmon_buff.n_hwmon (attrFor t))
                  n_hwmon := if env.create_rc t = 0
                    then ad.txgbe_hwmon_buff.n_hwmon + 1
                    else ad.txgbe_hwmon_buff.n_hwmon } }
            { files := if env.create_rc t = 0
                then host.files.filter (fun x => x != attrName t) ++ [attrName t]
                else host.files.filter (fun x => x != attrName t)
              createLog := host.createLog ++ [attrName t]
              removeLog := host.removeLog ++ [attrName t] }
            (l.set ad.txgbe_hwmon_buff.n_hwmon (attrFor t))
            (by simp [hl]) (by simp [hlen]) (by simp [hc]; omega)
        refine ⟨l', hl', hlen', ?_, ?_⟩
        · rw [hcount']
          simp [hc]
        · rw [htake']
          have hif : (if env.create_rc t = 0
              then ad.txgbe_hwmon_buff.n_hwmon + 1
              else ad.txgbe_hwmon_buff.n_hwmon)
              = ad.txgbe_hwmon_buff.n_hwmon := if_neg hc
          rw [hif, take_set_self,
            if_neg (fun hh => hc hh.2 :
              ¬(t ≠ HwmonType.UNKNOWN ∧ env.create_rc t = 0))]

/-- C9: after any sequence of at most three `txgbe_add_hwmon_attr` calls
starting from a freshly allocated buffer, the live counter equals the
number of attempts whose create succeeded (bounded by 3), and the first
`n_hwmon` slots of `hwmon_list` are exactly the descriptors of the
successful attempts in creation order — a failed attempt's slot is
reused by the next attempt, so teardown's removal loop names precisely
the files that were created. -/
theorem adds_live_prefix_exact (env : Env) (ts : List HwmonType)
    (ad : Adapter) (host : Host) (l : List HwmonAttr)
    (hl : ad.txgbe_hwmon_buff.hwmon_list = some l)
    (hlen : l.length = 3)
    (hn : ad.txgbe_hwmon_buff.n_hwmon = 0)
    (hts : ts.length ≤ 3) :
    ∃ l' : List HwmonAttr,
      (runAdds env ts (ad, host)).1.txgbe_hwmon_buff.hwmon_list = some l' ∧
      l'.length = 3 ∧
      (runAdds env ts (ad, host)).1.txgbe_hwmon_buff.n_hwmon
        = (addsSucceeded env ts).length ∧
      (runAdds env ts (ad, host)).1.txgbe_hwmon_buff.n_hwmon ≤ 3 ∧
      l'.take ((runAdds env ts (ad, host)).1.txgbe_hwmon_buff.n_hwmon)
        = addsSucceeded env ts := by
  obtain ⟨l', h1, h2, h3, h4⟩ :=
    runAdds_invariant env ts ad host l hl hlen (by omega)
  have hslen : (addsSucceeded env ts).length ≤ ts.length := by
    calc (addsSucceeded env ts).length
        = (ts.filter
            (fun t => !(t == HwmonType.UNKNOWN)
              && (env.create_rc t == 0))).length := by
          simp [addsSucceeded]
      _ ≤ ts.length := List.length_filter_le _ _
  refine ⟨l', h1, h2, by rw [h3, hn]; omega, by rw [h3, hn]; omega, ?_⟩
  rw [h4, hn]
  simp

/-- An adapter right after the `kcalloc` and hwmon registration steps of
init: zeroed 3-slot table, live device, no files yet. -/
def adAlloc : Adapter :=
  { txgbe_hwmon_buff :=
      { n_hwmon := 0
        hwmon_list := some (List.replicate 3 zeroAttr)
        device := some 1 }
    sensor := { temp := 45, alarm_thresh := 90, dalarm_thresh := 100 } }

theorem adds_live_prefix_exact_witness :
    ∃ l' : List HwmonAttr,
      (runAdds envMidFail
          [HwmonType.TEMP, HwmonType.ALARMTHRESH, HwmonType.DALARMTHRESH]
          (adAlloc, host0)).1.txgbe_hwmon_buff.hwmon_list = some l' ∧
      l'.length = 3 ∧
      (runAdds envMidFail
          [HwmonType.TEMP, HwmonType.ALARMTHRESH, HwmonType.DALARMTHRESH]
          (adAlloc, host0)).1.txgbe_hwmon_buff.n_hwmon
        = (addsSucceeded envMidFail
            [HwmonType.TEMP, HwmonType.ALARMTHRESH,
              HwmonType.DALARMTHRESH]).length ∧
      (runAdds envMidFail
          [HwmonType.TEMP, HwmonType.ALARMTHRESH, HwmonType.DALARMTHRESH]
          (adAlloc, host0)).1.txgbe_hwmon_buff.n_hwmon ≤ 3 ∧
      l'.take ((runAdds envMidFail
          [HwmonType.TEMP, HwmonType.ALARMTHRESH, HwmonType.DALARMTHRESH]
          (adAlloc, host0)).1.txgbe_hwmon_buff.n_hwmon)
        = addsSucceeded envMidFail
            [HwmonType.TEMP, HwmonType.ALARMTHRESH, HwmonType.DALARMTHRESH] :=
  adds_live_prefix_exact envMidFail
    [HwmonType.TEMP, HwmonType.ALARMTHRESH, HwmonType.DALARMTHRESH]
    adAlloc host0 (List.replicate 3 zeroAttr) rfl rfl rfl (by decide)

end Txgbe
